import Mathlib

/-!
Verification of the provisioning-specification factory and the
test-environment preparer of the upgrade-testing repository.

The Python modules embedded here are
`upgrade_testing/provisioning/_provisionconfig.py` and
`upgrade_testing/preparation/_hostprep.py`.  Python values that can occur
in a configuration mapping are modelled by `PyVal`; Python exceptions by
`PyError`; fallible Python code by `Except PyError`.
-/

set_option autoImplicit false

/-- A Python value as it can appear in a parsed configuration mapping:
a string, an integer, a list, or a string-keyed dictionary. -/
inductive PyVal where
  | str (s : String)
  | int (n : Int)
  | list (xs : List PyVal)
  | dict (entries : List (String × PyVal))


/-- The Python exceptions raised by the embedded code: `KeyError` (carrying
the missing key), `ValueError` (carrying its message), `IndexError` from
sequence indexing, `TypeError` from indexing or iterating a non-sequence,
and `OSError` from filesystem calls. -/
inductive PyError where
  | keyError (key : PyVal)
  | valueError (msg : String)
  | indexError
  | typeError
  | ioError


mutual

/-- Python `repr` of a value (`repr('a') = "\x27a\x27"`, `repr(3) = "3"`,
lists in brackets, dicts in braces).  String escaping inside `repr` of a
string is not modelled; the configuration keys and values exercised here
contain no characters that Python would escape. -/
def pyRepr : PyVal → String
  | .str s => "\x27" ++ s ++ "\x27"
  | .int n => toString n
  | .list xs => "[" ++ pyReprList xs ++ "]"
  | .dict es => "\x7b" ++ pyReprDict es ++ "\x7d"

/-- Comma-separated `repr`s of the elements of a Python list. -/
def pyReprList : List PyVal → String
  | [] => ""
  | [x] => pyRepr x
  | x :: xs => pyRepr x ++ ", " ++ pyReprList xs

/-- Comma-separated `repr`s of the entries of a Python dict. -/
def pyReprDict : List (String × PyVal) → String
  | [] => ""
  | [(k, v)] => "\x27" ++ k ++ "\x27: " ++ pyRepr v
  | (k, v) :: es => "\x27" ++ k ++ "\x27: " ++ pyRepr v ++ ", " ++ pyReprDict es

end

/-- Python `str` of a value: a string is itself, everything else renders as
its `repr`. -/
def pyStr : PyVal → String
  | .str s => s
  | v => pyRepr v

/-- First value stored under key `k` in a dictionary, if any. -/
def dictFind? (k : String) : List (String × PyVal) → Option PyVal
  | [] => none
  | e :: es => if e.1 = k then some e.2 else dictFind? k es

/-- Python `d[k]` on a dict: the stored value, or `KeyError(k)`. -/
def dictGet (d : List (String × PyVal)) (k : String) : Except PyError PyVal :=
  match dictFind? k d with
  | some v => .ok v
  | none => .error (.keyError (.str k))

/-- Python `d.get(k, default)` on a dict. -/
def dictGetD (d : List (String × PyVal)) (k : String) (dflt : PyVal) : PyVal :=
  (dictFind? k d).getD dflt

/-- Python sequence indexing `xs[i]` with negative indices counted from the
end; out-of-range indices raise `IndexError`.  (Indexing is modelled for
list values, the only sequence kind the configuration mappings use.) -/
def pyIndex (xs : List PyVal) (i : Int) : Except PyError PyVal :=
  let j : Int := if i < 0 then i + (xs.length : Int) else i
  if 0 ≤ j then
    match xs[j.toNat]? with
    | some v => .ok v
    | none => .error .indexError
  else
    .error .indexError

/-- View a Python value as a list; anything else raises `TypeError` when
indexed or iterated. -/
def asList : PyVal → Except PyError (List PyVal)
  | .list xs => .ok xs
  | _ => .error .typeError

/-- View a Python value as a dict; subscripting anything else with a string
key raises `TypeError`. -/
def asDict : PyVal → Except PyError (List (String × PyVal))
  | .dict es => .ok es
  | _ => .error .typeError

/-- `backends.LXCBackend(initial_state, distribution)` — an external
collaborator (out of scope per the spec), modelled as a record capturing
the constructor arguments. -/
structure LXCBackend where
  release : PyVal
  distribution : PyVal


/-- `backends.DeviceBackend(channel, initial_state, password, serial)` — an
external collaborator (out of scope per the spec), modelled as a record
capturing the constructor arguments. -/
structure DeviceBackend where
  channel : PyVal
  revision : String
  password : Option PyVal
  serial : Option PyVal


/-- `LXCProvisionSpecification` attribute state after a successful
`__init__` (at which point `releases` is known to be a list, since
`__init__` indexed it). -/
structure LXCProvisionSpecification where
  distribution : PyVal
  releases : List PyVal
  backend : LXCBackend


/-- `DeviceProvisionSpecification` attribute state after a successful
`__init__`. -/
structure DeviceProvisionSpecification where
  channel : PyVal
  revisions : List PyVal
  backend : DeviceBackend


/-- `LXCProvisionSpecification.__init__`: read `distribution` (defaulting
to `"ubuntu"`), read `releases` (a raw `KeyError` when absent), then build
the backend from `self.initial_state` — which indexes `releases[0]` and so
fails on a non-list or an empty list. -/
def LXCProvisionSpecification.init (provision_config : List (String × PyVal)) :
    Except PyError LXCProvisionSpecification := do
  let distribution := dictGetD provision_config "distribution" (.str "ubuntu")
  let releasesVal ← dictGet provision_config "releases"
  let releases ← asList releasesVal
  let initState ← pyIndex releases 0
  .ok ⟨distribution, releases, ⟨initState, distribution⟩⟩

/-- `'\x7bchannel\x7d:\x7brev\x7d'.format(channel=self.channel, rev=rev)`:
the composite state string built by
`DeviceProvisionSpecification._construct_state_string`. -/
def constructStateString (channel rev : PyVal) : String :=
  pyStr channel ++ ":" ++ pyStr rev

/-- `DeviceProvisionSpecification.__init__`: look up `channel` then
`revisions` inside a `try` block whose `KeyError` handler re-raises
`ValueError("Missing config detail: " + str(e))`; read optional `serial`
and `password`; then build the backend from `self.initial_state`, which
indexes `revisions[0]`. -/
def DeviceProvisionSpecification.init (provision_config : List (String × PyVal)) :
    Except PyError DeviceProvisionSpecification := do
  let pair : PyVal × PyVal ←
    match dictGet provision_config "channel" with
    | .error (.keyError k) =>
        .error (.valueError ("Missing config detail: " ++ pyRepr k))
    | .error e => .error e
    | .ok c =>
      match dictGet provision_config "revisions" with
      | .error (.keyError k) =>
          .error (.valueError ("Missing config detail: " ++ pyRepr k))
      | .error e => .error e
      | .ok r => .ok (c, r)
  let serial := dictFind? "serial" provision_config
  let password := dictFind? "password" provision_config
  let revisions ← asList pair.2
  let r0 ← pyIndex revisions 0
  .ok ⟨pair.1, revisions,
       ⟨pair.1, constructStateString pair.1 r0, password, serial⟩⟩

/-- `system_states` property of the container variant: `releases`
verbatim. -/
def LXCProvisionSpecification.system_states (s : LXCProvisionSpecification) :
    List PyVal :=
  s.releases

/-- `initial_state` property of the container variant: `releases[0]`. -/
def LXCProvisionSpecification.initial_state (s : LXCProvisionSpecification) :
    Except PyError PyVal :=
  pyIndex s.releases 0

/-- `final_state` property of the container variant: `releases[-1]`. -/
def LXCProvisionSpecification.final_state (s : LXCProvisionSpecification) :
    Except PyError PyVal :=
  pyIndex s.releases (-1)

/-- `system_states` property of the device variant: each revision combined
with the channel into a composite string. -/
def DeviceProvisionSpecification.system_states (s : DeviceProvisionSpecification) :
    List String :=
  s.revisions.map (fun r => constructStateString s.channel r)

/-- `initial_state` property of the device variant:
`_construct_state_string(revisions[0])`. -/
def DeviceProvisionSpecification.initial_state (s : DeviceProvisionSpecification) :
    Except PyError String :=
  (pyIndex s.revisions 0).map (fun r => constructStateString s.channel r)

/-- `final_state` property of the device variant:
`_construct_state_string(revisions[-1])`. -/
def DeviceProvisionSpecification.final_state (s : DeviceProvisionSpecification) :
    Except PyError String :=
  (pyIndex s.revisions (-1)).map (fun r => constructStateString s.channel r)

/-- A constructed provisioning specification: one of the two variants. -/
inductive ProvisionSpec where
  | lxc (s : LXCProvisionSpecification)
  | device (s : DeviceProvisionSpecification)


/-- The two concrete specification classes the dispatch table can name. -/
inductive SpecificationType where
  | lxc
  | device


/-- `get_specification_type`: look the backend name up in the fixed
two-entry dispatch table; an unknown name raises a raw `KeyError`
carrying the name. -/
def get_specification_type (spec_name : PyVal) : Except PyError SpecificationType :=
  match spec_name with
  | .str s =>
    if s = "lxc" then .ok .lxc
    else if s = "device" then .ok .device
    else .error (.keyError (.str s))
  | v => .error (.keyError v)

/-- `spec_type(provision_config)`: invoke the `__init__` of the selected
class on the configuration mapping. -/
def constructSpecification :
    SpecificationType → List (String × PyVal) → Except PyError ProvisionSpec
  | .lxc, cfg => (LXCProvisionSpecification.init cfg).map ProvisionSpec.lxc
  | .device, cfg => (DeviceProvisionSpecification.init cfg).map ProvisionSpec.device

/-- `ProvisionSpecification.from_provisionspec`: read `backend` at the top
level of the mapping, resolve the class, construct it on the same
mapping. -/
def from_provisionspec (spec : List (String × PyVal)) : Except PyError ProvisionSpec := do
  let backend_name ← dictGet spec "backend"
  let spec_type ← get_specification_type backend_name
  constructSpecification spec_type spec

/-- `ProvisionSpecification.from_testspec`: read `backend` from the
`provisioning` sub-mapping, resolve the class, construct it on that
sub-mapping. -/
def from_testspec (spec : List (String × PyVal)) : Except PyError ProvisionSpec := do
  let prov ← dictGet spec "provisioning"
  let provDict ← asDict prov
  let backend_name ← dictGet provDict "backend"
  let spec_type ← get_specification_type backend_name
  constructSpecification spec_type provDict

/-!
Embedding of `upgrade_testing/preparation/_hostprep.py`.

The run-configuration file is modelled as the exact string the code
writes; the filesystem as the set (list) of existing paths, with
`shutil.rmtree` removing a directory and everything below it.
-/

/-- `' '.join(...)` applied to a list of script names. -/
def joinScripts (xs : List String) : String :=
  String.intercalate " " xs

/-- The exact text `_write_run_config` writes: the dedented header chunk
(comment line plus the two location lines) followed by the four
`f.write` calls for the test lists and the initial/final system states.
`testbed_location` is the value returned by the external collaborator
`get_testbed_storage_location()`. -/
def writeRunConfig (testbed_location : String) (pre_upgrade_scripts : List String)
    (post_upgrade_tests : List String) (initial_state final_state : String) : String :=
  "# Auto Upgrade Test Configuration" ++ "\n" ++
  "PRE_TEST_LOCATION" ++ "=" ++ "\"" ++ testbed_location ++ "/pre_scripts" ++ "\"" ++ "\n" ++
  "POST_TEST_LOCATION" ++ "=" ++ "\"" ++ testbed_location ++ "/post_scripts" ++ "\"" ++ "\n" ++
  "PRE_TESTS_TO_RUN" ++ "=" ++ "\"" ++ joinScripts pre_upgrade_scripts ++ "\"" ++ "\n" ++
  "POST_TESTS_TO_RUN" ++ "=" ++ "\"" ++ joinScripts post_upgrade_tests ++ "\"" ++ "\n" ++
  "INITIAL_SYSTEM_STATE" ++ "=" ++ "\"" ++ initial_state ++ "\"" ++ "\n" ++
  "POST_SYSTEM_STATE" ++ "=" ++ "\"" ++ final_state ++ "\"" ++ "\n"

/-- Split a character sequence into newline-separated lines (the final
line is the possibly empty remainder after the last newline). -/
def splitLines : List Char → List (List Char)
  | [] => [[]]
  | c :: rest =>
    let r := splitLines rest
    if c = '\n' then [] :: r else (c :: r.headD []) :: r.tail

/-- Split a line at its first `=` sign into name and raw value. -/
def splitAtEq : List Char → Option (List Char × List Char)
  | [] => none
  | c :: rest =>
    if c = '=' then some ([], rest)
    else
      match splitAtEq rest with
      | none => none
      | some (k, v) => some (c :: k, v)

/-- Remove one matching pair of surrounding double quotes, if present. -/
def stripQuotes : List Char → List Char
  | '"' :: rest =>
    if rest.getLast? = some '"' then rest.dropLast else '"' :: rest
  | v => v

/-- Parse one line of a shell-sourceable key/value file: comment lines
(starting with `#`), blank lines and lines without `=` carry no pair;
otherwise the name is everything before the first `=` and the value is
the rest with surrounding quotes removed. -/
def parseLine (l : List Char) : Option (String × String) :=
  if l.head? = some '#' then none
  else
    match splitAtEq l with
    | none => none
    | some (k, v) => if k = [] then none else some (String.mk k, String.mk (stripQuotes v))

/-- Parse a run-configuration file into its list of key/value pairs. -/
def parseRunConfig (s : String) : List (String × String) :=
  (splitLines s.data).filterMap parseLine

/-- The filesystem modelled as the list of existing paths. -/
structure Fs where
  paths : List String

/-- Record a newly created file or directory. -/
def createPath (fs : Fs) (p : String) : Fs :=
  ⟨p :: fs.paths⟩

/-- `p` is the directory `dir` itself or a path below it. -/
def underDir (dir p : String) : Bool :=
  p == dir || (dir.data ++ ['/']).isPrefixOf p.data

/-- `shutil.rmtree(dir)`: remove `dir` and everything below it. -/
def rmtree (dir : String) (fs : Fs) : Fs :=
  ⟨fs.paths.filter (fun p => !(underDir dir p))⟩

/-- `_cleanup_dir(dir)`: `shutil.rmtree(dir)`. -/
def cleanup_dir (dir : String) (fs : Fs) : Fs :=
  rmtree dir fs

/-- Filesystem effect of `_write_run_config`: `tempfile.mkstemp(dir=temp_dir)`
creates a file with a fresh name (`cfg_name`, a parameter standing for the
random name) inside `temp_dir`, and the function returns its path. -/
def write_run_config_fs (fs : Fs) (temp_dir cfg_name : String) : String × Fs :=
  let run_config_file := temp_dir ++ "/" ++ cfg_name
  (run_config_file, createPath fs run_config_file)

/-- Filesystem effect of `_create_autopkg_details`: build
`<temp_dir>/debian/tests`, copy `control`, `upgrade` and `changelog` from
the bundled data directory, create the empty top-level `control`, and
return the `debian` directory. -/
def create_autopkg_details (fs : Fs) (temp_dir : String) : String × Fs :=
  let dir_tree := temp_dir ++ "/debian"
  let test_dir_tree := dir_tree ++ "/tests"
  let fs1 := createPath (createPath fs dir_tree) test_dir_tree
  let fs2 := createPath fs1 (test_dir_tree ++ "/control")
  let fs3 := createPath fs2 (test_dir_tree ++ "/upgrade")
  let fs4 := createPath fs3 (dir_tree ++ "/changelog")
  let fs5 := createPath fs4 (dir_tree ++ "/control")
  (dir_tree, fs5)

/-- The named triple of paths yielded by `prepare_test_environment`. -/
structure TestrunTempFiles where
  run_config_file : String
  testrun_tmp_dir : String
  unbuilt_dir : String

/-- The `TestrunTempFiles` value `prepare_test_environment` yields:
`run_config_file` is the file `_write_run_config` created inside the temp
directory, while both directory fields are the temp directory itself. -/
def yieldedTempFiles (temp_dir cfg_name : String) : TestrunTempFiles :=
  ⟨temp_dir ++ "/" ++ cfg_name, temp_dir, temp_dir⟩

/-- `prepare_test_environment` as a state transformer on the filesystem.
`temp_dir` is the fresh directory `tempfile.mkdtemp()` created and
`cfg_name` the fresh name `tempfile.mkstemp` picked.  `write_ok` and
`autopkg_ok` say whether the two setup steps inside the `try` block
succeed (an I/O failure in either raises `OSError`); `body` is the code
run at the `yield`, which may itself finish normally or raise.  The
`finally` clause always runs `_cleanup_dir(temp_dir)`. -/
def prepare_test_environment (temp_dir cfg_name : String)
    (write_ok autopkg_ok : Bool)
    (body : TestrunTempFiles → Fs → Except PyError Unit × Fs)
    (fs : Fs) : Except PyError Unit × Fs :=
  let fs1 := createPath fs temp_dir
  let result :=
    if write_ok then
      let wr := write_run_config_fs fs1 temp_dir cfg_name
      if autopkg_ok then
        let ad := create_autopkg_details wr.2 temp_dir
        body (yieldedTempFiles temp_dir cfg_name) ad.2
      else (.error .ioError, wr.2)
    else (.error .ioError, fs1)
  (result.1, cleanup_dir temp_dir result.2)

/-! Helper lemmas. -/

theorem except_bind_ok {α β : Type} (a : α) (f : α → Except PyError β) :
    (Except.ok a >>= f : Except PyError β) = f a := rfl

theorem except_bind_error {α β : Type} (e : PyError) (f : α → Except PyError β) :
    (Except.error e >>= f : Except PyError β) = Except.error e := rfl

theorem pyStr_str (s : String) : pyStr (.str s) = s := rfl

theorem except_map_ok {α β : Type} (f : α → β) (a : α) :
    (Except.map f (.ok a) : Except PyError β) = .ok (f a) := rfl

theorem pyIndex_zero (xs : List PyVal) (h : xs ≠ []) :
    pyIndex xs 0 = .ok (xs.head h) := by
  have hlen : 0 < xs.length := List.length_pos.mpr h
  simp only [pyIndex]
  norm_num
  rw [List.getElem?_eq_getElem hlen]
  simp [List.getElem_zero]

theorem pyIndex_neg_one (xs : List PyVal) (h : xs ≠ []) :
    pyIndex xs (-1) = .ok (xs.getLast h) := by
  have hlen : 0 < xs.length := List.length_pos.mpr h
  simp only [pyIndex]
  rw [if_pos (by omega), if_pos (by omega)]
  have hidx : ((-1 : Int) + (xs.length : Int)).toNat = xs.length - 1 := by omega
  rw [hidx, List.getElem?_eq_getElem (by omega), List.getLast_eq_getElem]

theorem pyIndex_nil (i : Int) : pyIndex [] i = .error .indexError := by
  simp [pyIndex]

/-! The claims. -/

/-- C1: a Device specification constructed from a mapping with channel
string `C` and non-empty revisions list `V` has
`system_states[i] = "C:V[i]"` for every index `i`,
`initial_state = "C:V[0]"` and `final_state = "C:V[-1]"`. -/
theorem c1_device_states (cfg : List (String × PyVal)) (C : String)
    (V : List PyVal) (hne : V ≠ [])
    (hc : dictGet cfg "channel" = .ok (.str C))
    (hr : dictGet cfg "revisions" = .ok (.list V))
    (s : DeviceProvisionSpecification)
    (hs : DeviceProvisionSpecification.init cfg = .ok s) :
    s.system_states = V.map (fun v => C ++ ":" ++ pyStr v) ∧
    (∀ i : Nat, s.system_states[i]? = (V[i]?).map (fun v => C ++ ":" ++ pyStr v)) ∧
    s.initial_state = .ok (C ++ ":" ++ pyStr (V.head hne)) ∧
    s.final_state = .ok (C ++ ":" ++ pyStr (V.getLast hne)) := by
  simp only [DeviceProvisionSpecification.init, hc, hr, except_bind_ok,
    asList, pyIndex_zero V hne] at hs
  obtain rfl : _ = s := Except.ok.inj hs
  refine ⟨rfl, ?_, ?_, ?_⟩
  · intro i
    simp [DeviceProvisionSpecification.system_states, List.getElem?_map,
      constructStateString, pyStr_str]
  · simp [DeviceProvisionSpecification.initial_state, pyIndex_zero V hne,
      constructStateString, pyStr_str, except_map_ok]
  · simp [DeviceProvisionSpecification.final_state, pyIndex_neg_one V hne,
      constructStateString, pyStr_str, except_map_ok]

/-- Witness for C1 at channel `"stable"` and revisions `[1, 2, 3]`. -/
theorem c1_device_states_witness :
    (⟨PyVal.str "stable", [PyVal.int 1, PyVal.int 2, PyVal.int 3],
      ⟨PyVal.str "stable", "stable:1", none, none⟩⟩ :
        DeviceProvisionSpecification).system_states =
      [PyVal.int 1, PyVal.int 2, PyVal.int 3].map
        (fun v => "stable" ++ ":" ++ pyStr v) ∧
    (∀ i : Nat,
      (⟨PyVal.str "stable", [PyVal.int 1, PyVal.int 2, PyVal.int 3],
        ⟨PyVal.str "stable", "stable:1", none, none⟩⟩ :
          DeviceProvisionSpecification).system_states[i]? =
        ([PyVal.int 1, PyVal.int 2, PyVal.int 3][i]?).map
          (fun v => "stable" ++ ":" ++ pyStr v)) ∧
    (⟨PyVal.str "stable", [PyVal.int 1, PyVal.int 2, PyVal.int 3],
      ⟨PyVal.str "stable", "stable:1", none, none⟩⟩ :
        DeviceProvisionSpecification).initial_state =
      .ok ("stable" ++ ":" ++ pyStr (PyVal.int 1)) ∧
    (⟨PyVal.str "stable", [PyVal.int 1, PyVal.int 2, PyVal.int 3],
      ⟨PyVal.str "stable", "stable:1", none, none⟩⟩ :
        DeviceProvisionSpecification).final_state =
      .ok ("stable" ++ ":" ++ pyStr (PyVal.int 3)) :=
  c1_device_states
    [("channel", PyVal.str "stable"),
     ("revisions", PyVal.list [PyVal.int 1, PyVal.int 2, PyVal.int 3])]
    "stable" [PyVal.int 1, PyVal.int 2, PyVal.int 3]
    (List.cons_ne_nil _ _) rfl rfl _ rfl

/-- C2: a Container (lxc) specification constructed from a mapping with
non-empty releases list `R` has `system_states = R`,
`initial_state = R[0]` and `final_state = R[-1]`. -/
theorem c2_container_states (cfg : List (String × PyVal)) (R : List PyVal)
    (hne : R ≠ [])
    (hr : dictGet cfg "releases" = .ok (.list R))
    (s : LXCProvisionSpecification)
    (hs : LXCProvisionSpecification.init cfg = .ok s) :
    s.system_states = R ∧
    s.initial_state = .ok (R.head hne) ∧
    s.final_state = .ok (R.getLast hne) := by
  simp only [LXCProvisionSpecification.init, hr, except_bind_ok, asList,
    pyIndex_zero R hne] at hs
  obtain rfl : _ = s := Except.ok.inj hs
  exact ⟨rfl, pyIndex_zero R hne, pyIndex_neg_one R hne⟩

/-- Witness for C2 at releases `["14.04", "16.04"]`. -/
theorem c2_container_states_witness :
    (⟨PyVal.str "ubuntu", [PyVal.str "14.04", PyVal.str "16.04"],
      ⟨PyVal.str "14.04", PyVal.str "ubuntu"⟩⟩ :
        LXCProvisionSpecification).system_states =
      [PyVal.str "14.04", PyVal.str "16.04"] ∧
    (⟨PyVal.str "ubuntu", [PyVal.str "14.04", PyVal.str "16.04"],
      ⟨PyVal.str "14.04", PyVal.str "ubuntu"⟩⟩ :
        LXCProvisionSpecification).initial_state = .ok (PyVal.str "14.04") ∧
    (⟨PyVal.str "ubuntu", [PyVal.str "14.04", PyVal.str "16.04"],
      ⟨PyVal.str "14.04", PyVal.str "ubuntu"⟩⟩ :
        LXCProvisionSpecification).final_state = .ok (PyVal.str "16.04") :=
  c2_container_states
    [("releases", PyVal.list [PyVal.str "14.04", PyVal.str "16.04"])]
    [PyVal.str "14.04", PyVal.str "16.04"]
    (List.cons_ne_nil _ _) rfl _ rfl

/-- Inversion of a successful `LXCProvisionSpecification.__init__`: the
mapping held a non-empty `releases` list, stored verbatim, and
`distribution` is the looked-up value or its default. -/
theorem LXCInit_ok_elim (cfg : List (String × PyVal)) (s : LXCProvisionSpecification)
    (hs : LXCProvisionSpecification.init cfg = .ok s) :
    s.releases ≠ [] ∧
    dictGet cfg "releases" = .ok (.list s.releases) ∧
    s.distribution = dictGetD cfg "distribution" (.str "ubuntu") := by
  rcases hr : dictFind? "releases" cfg with _ | v
  · simp only [LXCProvisionSpecification.init, dictGet, hr, except_bind_error] at hs
    exact Except.noConfusion hs
  · rcases v with t | n | xs | es
    · simp only [LXCProvisionSpecification.init, dictGet, hr, except_bind_ok,
        asList, except_bind_error] at hs
      exact Except.noConfusion hs
    · simp only [LXCProvisionSpecification.init, dictGet, hr, except_bind_ok,
        asList, except_bind_error] at hs
      exact Except.noConfusion hs
    · rcases xs with _ | ⟨a, tl⟩
      · simp only [LXCProvisionSpecification.init, dictGet, hr, except_bind_ok,
          asList, pyIndex_nil, except_bind_error] at hs
        exact Except.noConfusion hs
      · simp only [LXCProvisionSpecification.init, dictGet, hr, except_bind_ok,
          asList, pyIndex_zero (a :: tl) (List.cons_ne_nil a tl)] at hs
        obtain rfl : _ = s := Except.ok.inj hs
        exact ⟨List.cons_ne_nil a tl, by simp [dictGet, hr], rfl⟩
    · simp only [LXCProvisionSpecification.init, dictGet, hr, except_bind_ok,
        asList, except_bind_error] at hs
      exact Except.noConfusion hs

/-- Inversion of a successful `DeviceProvisionSpecification.__init__`: the
mapping held `channel` and a non-empty `revisions` list, stored
verbatim. -/
theorem DeviceInit_ok_elim (cfg : List (String × PyVal)) (s : DeviceProvisionSpecification)
    (hs : DeviceProvisionSpecification.init cfg = .ok s) :
    s.revisions ≠ [] ∧
    dictFind? "channel" cfg = some s.channel ∧
    dictGet cfg "revisions" = .ok (.list s.revisions) := by
  rcases hc : dictFind? "channel" cfg with _ | c
  · simp only [DeviceProvisionSpecification.init, dictGet, hc, except_bind_error] at hs
    exact Except.noConfusion hs
  · rcases hr : dictFind? "revisions" cfg with _ | v
    · simp only [DeviceProvisionSpecification.init, dictGet, hc, hr,
        except_bind_error] at hs
      exact Except.noConfusion hs
    · rcases v with t | n | xs | es
      · simp only [DeviceProvisionSpecification.init, dictGet, hc, hr,
          except_bind_ok, asList, except_bind_error] at hs
        exact Except.noConfusion hs
      · simp only [DeviceProvisionSpecification.init, dictGet, hc, hr,
          except_bind_ok, asList, except_bind_error] at hs
        exact Except.noConfusion hs
      · rcases xs with _ | ⟨a, tl⟩
        · simp only [DeviceProvisionSpecification.init, dictGet, hc, hr,
            except_bind_ok, asList, pyIndex_nil, except_bind_error] at hs
          exact Except.noConfusion hs
        · simp only [DeviceProvisionSpecification.init, dictGet, hc, hr,
            except_bind_ok, asList,
            pyIndex_zero (a :: tl) (List.cons_ne_nil a tl)] at hs
          obtain rfl : _ = s := Except.ok.inj hs
          exact ⟨List.cons_ne_nil a tl, rfl, by simp [dictGet, hr]⟩
      · simp only [DeviceProvisionSpecification.init, dictGet, hc, hr,
          except_bind_ok, asList, except_bind_error] at hs
        exact Except.noConfusion hs

/-- `(l.map f).getLast?` is the image of `l.getLast?`. -/
theorem getLast?_map_str (f : PyVal → String) :
    ∀ l : List PyVal, (l.map f).getLast? = (l.getLast?).map f
  | [] => rfl
  | [a] => rfl
  | a :: b :: tl => by
    simp only [List.map_cons, List.getLast?_cons_cons]
    exact getLast?_map_str f (b :: tl)

/-- C3: constructing a Device specification from a mapping missing
`channel` (or missing `revisions`) fails with a `ValueError` — not a raw
`KeyError` — whose message names the absent key; in particular the
message for a missing `channel` contains `channel`. -/
theorem c3_device_missing_key_error (cfg : List (String × PyVal)) :
    (dictFind? "channel" cfg = none →
      DeviceProvisionSpecification.init cfg =
        .error (.valueError "Missing config detail: \x27channel\x27")) ∧
    (∀ c, dictFind? "channel" cfg = some c →
      dictFind? "revisions" cfg = none →
      DeviceProvisionSpecification.init cfg =
        .error (.valueError "Missing config detail: \x27revisions\x27")) ∧
    (∃ a b, "Missing config detail: \x27channel\x27" = a ++ "channel" ++ b) := by
  refine ⟨?_, ?_, "Missing config detail: \x27", "\x27", rfl⟩
  · intro h
    simp only [DeviceProvisionSpecification.init, dictGet, h, except_bind_error]
    rfl
  · intro c hc hr
    simp only [DeviceProvisionSpecification.init, dictGet, hc, hr, except_bind_error]
    rfl

/-- Witness for C3: the empty mapping misses `channel`; a mapping with
only `channel` misses `revisions`. -/
theorem c3_device_missing_key_error_witness :
    DeviceProvisionSpecification.init [] =
      .error (.valueError "Missing config detail: \x27channel\x27") ∧
    DeviceProvisionSpecification.init [("channel", PyVal.str "stable")] =
      .error (.valueError "Missing config detail: \x27revisions\x27") :=
  ⟨(c3_device_missing_key_error []).1 rfl,
   (c3_device_missing_key_error [("channel", PyVal.str "stable")]).2.1
     (PyVal.str "stable") rfl rfl⟩

/-- C4: a specification with an empty releases (resp. revisions) list can
never be constructed, and on every constructed specification
`initial_state` and `final_state` are the first and last entries of
`system_states`. -/
theorem c4_no_empty_spec (cfg : List (String × PyVal)) :
    (dictFind? "releases" cfg = some (.list []) →
      ∀ s, LXCProvisionSpecification.init cfg ≠ .ok s) ∧
    (dictFind? "revisions" cfg = some (.list []) →
      ∀ s, DeviceProvisionSpecification.init cfg ≠ .ok s) ∧
    (∀ s, LXCProvisionSpecification.init cfg = .ok s →
      ∃ a b, s.system_states.head? = some a ∧ s.initial_state = .ok a ∧
        s.system_states.getLast? = some b ∧ s.final_state = .ok b) ∧
    (∀ s, DeviceProvisionSpecification.init cfg = .ok s →
      ∃ a b, s.system_states.head? = some a ∧ s.initial_state = .ok a ∧
        s.system_states.getLast? = some b ∧ s.final_state = .ok b) := by
  refine ⟨?_, ?_, ?_, ?_⟩
  · intro h s hcon
    obtain ⟨hne, hrel, -⟩ := LXCInit_ok_elim cfg s hcon
    simp only [dictGet, h] at hrel
    injection Except.ok.inj hrel with h2
    exact hne h2.symm
  · intro h s hcon
    obtain ⟨hne, -, hrev⟩ := DeviceInit_ok_elim cfg s hcon
    simp only [dictGet, h] at hrev
    injection Except.ok.inj hrev with h2
    exact hne h2.symm
  · intro s hcon
    obtain ⟨hne, -, -⟩ := LXCInit_ok_elim cfg s hcon
    refine ⟨s.releases.head hne, s.releases.getLast hne, ?_, ?_, ?_, ?_⟩
    · simp [LXCProvisionSpecification.system_states, List.head?_eq_head hne]
    · exact pyIndex_zero s.releases hne
    · simp [LXCProvisionSpecification.system_states,
        List.getLast?_eq_getLast s.releases hne]
    · exact pyIndex_neg_one s.releases hne
  · intro s hcon
    obtain ⟨hne, -, -⟩ := DeviceInit_ok_elim cfg s hcon
    have hmapne : s.system_states ≠ [] := by
      simp [DeviceProvisionSpecification.system_states, hne]
    refine ⟨constructStateString s.channel (s.revisions.head hne),
            constructStateString s.channel (s.revisions.getLast hne), ?_, ?_, ?_, ?_⟩
    · simp [DeviceProvisionSpecification.system_states, List.head?_map,
        List.head?_eq_head hne]
    · simp [DeviceProvisionSpecification.initial_state,
        pyIndex_zero s.revisions hne, except_map_ok]
    · simp [DeviceProvisionSpecification.system_states, getLast?_map_str,
        List.getLast?_eq_getLast s.revisions hne]
    · simp [DeviceProvisionSpecification.final_state,
        pyIndex_neg_one s.revisions hne, except_map_ok]

/-- Witness for C4: empty lists make both constructors fail; constructed
specifications expose first/last of `system_states`. -/
theorem c4_no_empty_spec_witness :
    LXCProvisionSpecification.init
        [("channel", PyVal.str "c"), ("revisions", PyVal.list []),
         ("releases", PyVal.list [])] ≠
      .ok ⟨PyVal.str "ubuntu", [], ⟨PyVal.str "x", PyVal.str "ubuntu"⟩⟩ ∧
    DeviceProvisionSpecification.init
        [("channel", PyVal.str "c"), ("revisions", PyVal.list []),
         ("releases", PyVal.list [])] ≠
      .ok ⟨PyVal.str "c", [], ⟨PyVal.str "c", "c:x", none, none⟩⟩ ∧
    (∃ a b,
      (⟨PyVal.str "ubuntu", [PyVal.str "14.04", PyVal.str "16.04"],
        ⟨PyVal.str "14.04", PyVal.str "ubuntu"⟩⟩ :
          LXCProvisionSpecification).system_states.head? = some a ∧
      (⟨PyVal.str "ubuntu", [PyVal.str "14.04", PyVal.str "16.04"],
        ⟨PyVal.str "14.04", PyVal.str "ubuntu"⟩⟩ :
          LXCProvisionSpecification).initial_state = .ok a ∧
      (⟨PyVal.str "ubuntu", [PyVal.str "14.04", PyVal.str "16.04"],
        ⟨PyVal.str "14.04", PyVal.str "ubuntu"⟩⟩ :
          LXCProvisionSpecification).system_states.getLast? = some b ∧
      (⟨PyVal.str "ubuntu", [PyVal.str "14.04", PyVal.str "16.04"],
        ⟨PyVal.str "14.04", PyVal.str "ubuntu"⟩⟩ :
          LXCProvisionSpecification).final_state = .ok b) ∧
    (∃ a b,
      (⟨PyVal.str "stable", [PyVal.int 1, PyVal.int 2],
        ⟨PyVal.str "stable", "stable:1", none, none⟩⟩ :
          DeviceProvisionSpecification).system_states.head? = some a ∧
      (⟨PyVal.str "stable", [PyVal.int 1, PyVal.int 2],
        ⟨PyVal.str "stable", "stable:1", none, none⟩⟩ :
          DeviceProvisionSpecification).initial_state = .ok a ∧
      (⟨PyVal.str "stable", [PyVal.int 1, PyVal.int 2],
        ⟨PyVal.str "stable", "stable:1", none, none⟩⟩ :
          DeviceProvisionSpecification).system_states.getLast? = some b ∧
      (⟨PyVal.str "stable", [PyVal.int 1, PyVal.int 2],
        ⟨PyVal.str "stable", "stable:1", none, none⟩⟩ :
          DeviceProvisionSpecification).final_state = .ok b) :=
  ⟨(c4_no_empty_spec
      [("channel", PyVal.str "c"), ("revisions", PyVal.list []),
       ("releases", PyVal.list [])]).1 rfl _,
   (c4_no_empty_spec
      [("channel", PyVal.str "c"), ("revisions", PyVal.list []),
       ("releases", PyVal.list [])]).2.1 rfl _,
   (c4_no_empty_spec
      [("releases", PyVal.list [PyVal.str "14.04", PyVal.str "16.04"])]).2.2.1
     _ rfl,
   (c4_no_empty_spec
      [("channel", PyVal.str "stable"),
       ("revisions", PyVal.list [PyVal.int 1, PyVal.int 2])]).2.2.2 _ rfl⟩

/-- C5: a backend name other than `lxc` and `device` makes both factory
entry points fail with the raw `KeyError` from the dispatch-table lookup,
not a `ValueError`. -/
theorem c5_unknown_backend (n : String) (pd : List (String × PyVal))
    (hb : dictGet pd "backend" = .ok (.str n))
    (h1 : n ≠ "lxc") (h2 : n ≠ "device") :
    from_provisionspec pd = .error (.keyError (.str n)) ∧
    ∀ spec, dictGet spec "provisioning" = .ok (.dict pd) →
      from_testspec spec = .error (.keyError (.str n)) := by
  constructor
  · simp only [from_provisionspec, hb, except_bind_ok, get_specification_type,
      if_neg h1, if_neg h2, except_bind_error]
  · intro spec hp
    simp only [from_testspec, hp, except_bind_ok, asDict, hb,
      get_specification_type, if_neg h1, if_neg h2, except_bind_error]

/-- Witness for C5 at backend name `"qemu"`. -/
theorem c5_unknown_backend_witness :
    from_provisionspec [("backend", PyVal.str "qemu")] =
      .error (.keyError (.str "qemu")) ∧
    from_testspec [("provisioning", PyVal.dict [("backend", PyVal.str "qemu")])] =
      .error (.keyError (.str "qemu")) :=
  ⟨(c5_unknown_backend "qemu" [("backend", PyVal.str "qemu")] rfl
      (by decide) (by decide)).1,
   (c5_unknown_backend "qemu" [("backend", PyVal.str "qemu")] rfl
      (by decide) (by decide)).2
     [("provisioning", PyVal.dict [("backend", PyVal.str "qemu")])] rfl⟩

/-- C6: `from_testspec` reads the backend from the `provisioning`
sub-mapping and builds the Container variant for `lxc`; an absent
`distribution` key defaults to `"ubuntu"`; on the concrete example the
states are `"14.04"` and `"16.04"`. -/
theorem c6_from_testspec_lxc_example :
    (∀ (pd : List (String × PyVal)) (s : LXCProvisionSpecification),
      LXCProvisionSpecification.init pd = .ok s →
      dictFind? "distribution" pd = none →
      s.distribution = .str "ubuntu") ∧
    (∃ s : LXCProvisionSpecification,
      from_testspec
          [("provisioning", PyVal.dict
            [("backend", PyVal.str "lxc"),
             ("releases", PyVal.list [PyVal.str "14.04", PyVal.str "16.04"])])] =
        .ok (.lxc s) ∧
      s.initial_state = .ok (.str "14.04") ∧
      s.final_state = .ok (.str "16.04") ∧
      s.distribution = .str "ubuntu") := by
  constructor
  · intro pd s hs hd
    obtain ⟨-, -, hdist⟩ := LXCInit_ok_elim pd s hs
    rw [hdist]
    simp [dictGetD, hd]
  · exact ⟨⟨PyVal.str "ubuntu", [PyVal.str "14.04", PyVal.str "16.04"],
      ⟨PyVal.str "14.04", PyVal.str "ubuntu"⟩⟩, rfl, rfl, rfl, rfl⟩

/-- Witness for C6 discharging the hypotheses of its universally
quantified part on a concrete mapping without `distribution`. -/
theorem c6_from_testspec_lxc_example_witness :
    (⟨PyVal.str "ubuntu", [PyVal.str "14.04"],
      ⟨PyVal.str "14.04", PyVal.str "ubuntu"⟩⟩ :
        LXCProvisionSpecification).distribution = .str "ubuntu" :=
  c6_from_testspec_lxc_example.1
    [("releases", PyVal.list [PyVal.str "14.04"])] _ rfl rfl

/-- C10: on a mapping with a `provisioning` key, `from_testspec` builds
exactly the specification `from_provisionspec` builds from the
sub-mapping. -/
theorem c10_testspec_matches_provisionspec (spec : List (String × PyVal))
    (pd : List (String × PyVal))
    (h : dictGet spec "provisioning" = .ok (.dict pd)) :
    from_testspec spec = from_provisionspec pd := by
  simp only [from_testspec, from_provisionspec, h, except_bind_ok, asDict]

/-- Witness for C10 on a concrete device test specification. -/
theorem c10_testspec_matches_provisionspec_witness :
    from_testspec
        [("provisioning", PyVal.dict
          [("backend", PyVal.str "device"), ("channel", PyVal.str "stable"),
           ("revisions", PyVal.list [PyVal.int 1, PyVal.int 2, PyVal.int 3])])] =
      from_provisionspec
        [("backend", PyVal.str "device"), ("channel", PyVal.str "stable"),
         ("revisions", PyVal.list [PyVal.int 1, PyVal.int 2, PyVal.int 3])] :=
  c10_testspec_matches_provisionspec _ _ rfl

/-- A directory is under itself. -/
theorem underDir_self (dir : String) : underDir dir dir = true := by
  simp [underDir]

/-- A path of the form `dir ++ "/" ++ rest` is under `dir`. -/
theorem underDir_sub (dir rest : String) :
    underDir dir (dir ++ "/" ++ rest) = true := by
  have hpre : (dir.data ++ ['/']) <+: (dir ++ "/" ++ rest).data := by
    simp only [String.data_append]
    exact ⟨rest.data, by simp [List.append_assoc]⟩
  simp [underDir, List.isPrefixOf_iff_prefix, hpre]

/-- After `shutil.rmtree(dir)`, no path under `dir` exists. -/
theorem not_mem_rmtree (dir p : String) (fs : Fs) (h : underDir dir p = true) :
    p ∉ (rmtree dir fs).paths := by
  simp [rmtree, List.mem_filter, h]

/-- C8: on every exit of the preparation scope — the body returning
normally, the body raising, or either setup step failing after the temp
directory was created — none of the three yielded paths still exists. -/
theorem c8_cleanup_on_every_exit (temp_dir cfg_name : String)
    (write_ok autopkg_ok : Bool)
    (body : TestrunTempFiles → Fs → Except PyError Unit × Fs) (fs : Fs) :
    (yieldedTempFiles temp_dir cfg_name).run_config_file ∉
      (prepare_test_environment temp_dir cfg_name write_ok autopkg_ok body fs).2.paths ∧
    (yieldedTempFiles temp_dir cfg_name).testrun_tmp_dir ∉
      (prepare_test_environment temp_dir cfg_name write_ok autopkg_ok body fs).2.paths ∧
    (yieldedTempFiles temp_dir cfg_name).unbuilt_dir ∉
      (prepare_test_environment temp_dir cfg_name write_ok autopkg_ok body fs).2.paths := by
  refine ⟨?_, ?_, ?_⟩
  · exact not_mem_rmtree _ _ _ (underDir_sub temp_dir cfg_name)
  · exact not_mem_rmtree _ _ _ (underDir_self temp_dir)
  · exact not_mem_rmtree _ _ _ (underDir_self temp_dir)

/-- C9: the yielded triple has `testrun_tmp_dir = unbuilt_dir` (both the
temp directory), `run_config_file` inside that directory, and it is
exactly the value the scope hands to its body. -/
theorem c9_yielded_triple_shape (temp_dir cfg_name : String)
    (body : TestrunTempFiles → Fs → Except PyError Unit × Fs) (fs : Fs) :
    (yieldedTempFiles temp_dir cfg_name).testrun_tmp_dir =
      (yieldedTempFiles temp_dir cfg_name).unbuilt_dir ∧
    (yieldedTempFiles temp_dir cfg_name).run_config_file =
      (yieldedTempFiles temp_dir cfg_name).testrun_tmp_dir ++ "/" ++ cfg_name ∧
    underDir (yieldedTempFiles temp_dir cfg_name).testrun_tmp_dir
      (yieldedTempFiles temp_dir cfg_name).run_config_file = true ∧
    prepare_test_environment temp_dir cfg_name true true body fs =
      (let r := body (yieldedTempFiles temp_dir cfg_name)
        (create_autopkg_details
          (write_run_config_fs (createPath fs temp_dir) temp_dir cfg_name).2
          temp_dir).2
       (r.1, cleanup_dir temp_dir r.2)) :=
  ⟨rfl, rfl, underDir_sub temp_dir cfg_name, rfl⟩

/-- `splitLines` never returns an empty list of lines. -/
theorem splitLines_ne_nil (cs : List Char) : splitLines cs ≠ [] := by
  cases cs with
  | nil => simp [splitLines]
  | cons c tl =>
    simp only [splitLines]
    split <;> simp

/-- A leading newline opens a fresh empty line. -/
theorem splitLines_newline (b : List Char) :
    splitLines ('\n' :: b) = [] :: splitLines b := by
  simp [splitLines]

/-- Splitting `a ++ '\n' :: b` when `a` has no newline yields line `a`
followed by the lines of `b`. -/
theorem splitLines_append (a b : List Char) (ha : '\n' ∉ a) :
    splitLines (a ++ '\n' :: b) = a :: splitLines b := by
  induction a with
  | nil => simpa using splitLines_newline b
  | cons c tl ih =>
    have hc : c ≠ '\n' := by
      intro h
      exact ha (h ▸ List.mem_cons_self c tl)
    have htl : '\n' ∉ tl := fun h => ha (List.mem_cons_of_mem c h)
    rw [List.cons_append]
    simp only [splitLines, List.append_eq, if_neg hc, ih htl]
    simp

/-- Splitting `k ++ '=' :: v` at the first `=` when `k` has none. -/
theorem splitAtEq_append (k v : List Char) (hk : '=' ∉ k) :
    splitAtEq (k ++ '=' :: v) = some (k, v) := by
  induction k with
  | nil => simp [splitAtEq]
  | cons c tl ih =>
    have hc : c ≠ '=' := by
      intro h
      exact hk (h ▸ List.mem_cons_self c tl)
    have htl : '=' ∉ tl := fun h => hk (List.mem_cons_of_mem c h)
    rw [List.cons_append]
    simp only [splitAtEq, List.append_eq, if_neg hc, ih htl]

/-- Stripping the quotes of a fully quoted value. -/
theorem stripQuotes_wrap (v : List Char) :
    stripQuotes ('"' :: (v ++ ['"'])) = v := by
  simp only [stripQuotes]
  rw [if_pos (List.getLast?_concat v)]
  exact List.dropLast_concat

/-- `head?` of an append with a non-empty left part. -/
theorem head?_append_ne_nil (k rest : List Char) (h : k ≠ []) :
    (k ++ rest).head? = k.head? := by
  cases k
  · exact absurd rfl h
  · rfl

/-- Parsing one generated `NAME="value"` line. -/
theorem parseLine_line (k v : List Char) (hk : '=' ∉ k) (hne : k ≠ [])
    (hhash : k.head? ≠ some '#') :
    parseLine (k ++ '=' :: '"' :: (v ++ ['"'])) =
      some (String.mk k, String.mk v) := by
  simp only [parseLine, head?_append_ne_nil k _ hne, if_neg hhash,
    splitAtEq_append k _ hk]
  simp [hne, stripQuotes_wrap]

/-- A `NAME="value"` line contains no newline when name and value have
none. -/
theorem newline_not_mem_line (kd vd : List Char)
    (hkd : '\n' ∉ kd) (hvd : '\n' ∉ vd) :
    '\n' ∉ kd ++ '=' :: '"' :: (vd ++ ['"']) := by
  intro hm
  rcases List.mem_append.mp hm with hm | hm
  · exact hkd hm
  · rcases List.mem_cons.mp hm with h | hm
    · exact absurd h (by decide)
    · rcases List.mem_cons.mp hm with h | hm
      · exact absurd h (by decide)
      · rcases List.mem_append.mp hm with hm | hm
        · exact hvd hm
        · exact absurd (List.mem_singleton.mp hm) (by decide)

set_option maxRecDepth 4000 in
/-- C7: for every test specification (whose script names, states and
testbed location contain no newline, so that the file stays line
structured), the generated run-configuration file parses to exactly the
six fixed variables: the two location variables, the space-joined
pre/post test lists, and the provisioning spec initial/final states. -/
theorem c7_run_config_contents (loc : String) (pre post : List String)
    (i f : String)
    (h1 : '\n' ∉ loc.data) (h2 : '\n' ∉ (joinScripts pre).data)
    (h3 : '\n' ∉ (joinScripts post).data) (h4 : '\n' ∉ i.data)
    (h5 : '\n' ∉ f.data) :
    parseRunConfig (writeRunConfig loc pre post i f) =
      [("PRE_TEST_LOCATION", loc ++ "/pre_scripts"),
       ("POST_TEST_LOCATION", loc ++ "/post_scripts"),
       ("PRE_TESTS_TO_RUN", joinScripts pre),
       ("POST_TESTS_TO_RUN", joinScripts post),
       ("INITIAL_SYSTEM_STATE", i),
       ("POST_SYSTEM_STATE", f)] := by
  have hv1 : '\n' ∉ loc.data ++ "/pre_scripts".data := by
    intro hm
    rcases List.mem_append.mp hm with hm | hm
    · exact h1 hm
    · exact absurd hm (by decide)
  have hv2 : '\n' ∉ loc.data ++ "/post_scripts".data := by
    intro hm
    rcases List.mem_append.mp hm with hm | hm
    · exact h1 hm
    · exact absurd hm (by decide)
  have hdata : (writeRunConfig loc pre post i f).data =
      "# Auto Upgrade Test Configuration".data ++ '\n' ::
      (("PRE_TEST_LOCATION".data ++ '=' :: '"' ::
          ((loc.data ++ "/pre_scripts".data) ++ ['"'])) ++ '\n' ::
      (("POST_TEST_LOCATION".data ++ '=' :: '"' ::
          ((loc.data ++ "/post_scripts".data) ++ ['"'])) ++ '\n' ::
      (("PRE_TESTS_TO_RUN".data ++ '=' :: '"' ::
          ((joinScripts pre).data ++ ['"'])) ++ '\n' ::
      (("POST_TESTS_TO_RUN".data ++ '=' :: '"' ::
          ((joinScripts post).data ++ ['"'])) ++ '\n' ::
      (("INITIAL_SYSTEM_STATE".data ++ '=' :: '"' ::
          (i.data ++ ['"'])) ++ '\n' ::
      (("POST_SYSTEM_STATE".data ++ '=' :: '"' ::
          (f.data ++ ['"'])) ++ '\n' :: [])))))) := by
    simp [writeRunConfig, String.data_append, List.append_assoc,
      show "\n".data = ['\n'] from rfl, show "=".data = ['='] from rfl,
      show "\"".data = ['"'] from rfl]
  rw [parseRunConfig, hdata]
  rw [splitLines_append _ _ (by decide),
      splitLines_append _ _ (newline_not_mem_line _ _ (by decide) hv1),
      splitLines_append _ _ (newline_not_mem_line _ _ (by decide) hv2),
      splitLines_append _ _ (newline_not_mem_line _ _ (by decide) h2),
      splitLines_append _ _ (newline_not_mem_line _ _ (by decide) h3),
      splitLines_append _ _ (newline_not_mem_line _ _ (by decide) h4),
      splitLines_append _ _ (newline_not_mem_line _ _ (by decide) h5)]
  simp only [show splitLines [] = [[]] from rfl, List.filterMap_cons,
    List.filterMap_nil,
    show parseLine "# Auto Upgrade Test Configuration".data = none from rfl,
    show parseLine ([] : List Char) = none from rfl,
    parseLine_line "PRE_TEST_LOCATION".data (loc.data ++ "/pre_scripts".data)
      (by decide) (by decide) (by decide),
    parseLine_line "POST_TEST_LOCATION".data (loc.data ++ "/post_scripts".data)
      (by decide) (by decide) (by decide),
    parseLine_line "PRE_TESTS_TO_RUN".data ((joinScripts pre).data)
      (by decide) (by decide) (by decide),
    parseLine_line "POST_TESTS_TO_RUN".data ((joinScripts post).data)
      (by decide) (by decide) (by decide),
    parseLine_line "INITIAL_SYSTEM_STATE".data (i.data)
      (by decide) (by decide) (by decide),
    parseLine_line "POST_SYSTEM_STATE".data (f.data)
      (by decide) (by decide) (by decide)]
  rfl

/-- Witness for C7 on a concrete test specification. -/
theorem c7_run_config_contents_witness :
    parseRunConfig
        (writeRunConfig "/storage" ["a_setup", "b_setup"] ["t_check"]
          "14.04" "16.04") =
      [("PRE_TEST_LOCATION", "/storage" ++ "/pre_scripts"),
       ("POST_TEST_LOCATION", "/storage" ++ "/post_scripts"),
       ("PRE_TESTS_TO_RUN", joinScripts ["a_setup", "b_setup"]),
       ("POST_TESTS_TO_RUN", joinScripts ["t_check"]),
       ("INITIAL_SYSTEM_STATE", "14.04"),
       ("POST_SYSTEM_STATE", "16.04")] :=
  c7_run_config_contents "/storage" ["a_setup", "b_setup"] ["t_check"]
    "14.04" "16.04" (by decide) (by decide) (by decide) (by decide) (by decide)
